import Mathlib

/-!
Verification development for the billing_api repository.

The definitions below are a shallow embedding of the Python sources:

* `app/domain/entities.py` and `app/domain/enums.py` (domain model),
* `app/infrastructure/mappers/facturify_payload.py` (outbound payload builder),
* `app/application/dtos/facturify_format.py` and
  `app/application/dtos/carta_porte.py` (the provider-format and internal
  request DTO shapes),
* `app/application/transformers/facturify_to_internal.py` (inbound
  transformer),
* `app/infrastructure/http/facturify_auth_client.py` (token lifecycle),
* `app/application/services/create_carta_porte.py` (orchestrator).

Modelling conventions: Python floats are embedded as exact rationals (`ℚ`);
`round(x, 2)` is embedded as decimal rounding half-to-even on the rational
value; Python truthiness of optional strings is `truthyStr`; `datetime`
values are embedded semantically (an abstract instant), with
`isoformat`/`fromisoformat` treated as mutually inverse, so the builder's
serialized timestamp re-parses to the same instant; fallible code returns
`Option`/`Except`.
-/

/-- Round a rational to the nearest integer, ties to even — the rounding rule
of Python's `round` builtin (on the exact numeric value). -/
def pyRoundInt (x : ℚ) : ℤ :=
  let f : ℤ := ⌊x⌋
  let r : ℚ := x - (f : ℚ)
  if r < 1 / 2 then f
  else if 1 / 2 < r then f + 1
  else if f % 2 = 0 then f else f + 1

/-- Python `round(x, 2)`: round to 2 decimal places, ties to even. -/
def round2 (x : ℚ) : ℚ := (pyRoundInt (x * 100) : ℚ) / 100

/-- Python `int(x)` on a float: truncation toward zero. -/
def pyInt (x : ℚ) : ℤ := if 0 ≤ x then ⌊x⌋ else -⌊-x⌋

/-- Decimal rendering of `n` left-padded with zeros to width 6 — the Python
format spec `{n:06d}` for a non-negative argument. -/
def pad6 (n : ℕ) : String :=
  let s := toString n
  String.mk (List.replicate (6 - s.length) '0') ++ s

/-- Python `enumerate(xs, start=n)`. -/
def enumFrom (n : ℕ) : List α → List (ℕ × α)
  | [] => []
  | x :: xs => (n, x) :: enumFrom (n + 1) xs

/-- Python `str.capitalize()`: first character uppercased, the rest
lowercased. -/
def pyCapitalize (s : String) : String :=
  match s.toList with
  | [] => ""
  | c :: cs => String.mk (c.toUpper :: cs.map Char.toLower)

/-- Truthiness of an optional Python string: `None` and `""` are falsy. -/
def truthyStr : Option String → Bool
  | none => false
  | some s => !(s == "")

/-- Python `a or b` where `a` is an optional string and `b` a string:
returns `a` when truthy, otherwise `b`. -/
def pyOrStr (a : Option String) (b : String) : String :=
  match a with
  | none => b
  | some s => if s == "" then b else s

/-- Python `a or b` on optional strings: `a` when truthy, otherwise `b`. -/
def pyOr (a b : Option String) : Option String :=
  match a with
  | none => b
  | some s => if s == "" then b else some s

/-- Python `d.get(k)` on a string-keyed dict embedded as an association
list. -/
def dictGet (k : String) (d : List (String × ℚ)) : Option ℚ :=
  (d.find? (fun p => p.1 == k)).map (·.2)

/-- The value of `item.taxes and item.taxes.get("iva")` followed by a
truthiness test, as in `facturify_payload.py` line 68: the `iva` entry when
the taxes dict is truthy (non-`None`, non-empty) and the entry is present
and non-zero. -/
def truthyIva (t : Option (List (String × ℚ))) : Option ℚ :=
  match t with
  | none => none
  | some d =>
    if d.isEmpty then none
    else match dictGet "iva" d with
      | none => none
      | some v => if v = 0 then none else some v

/-! ## Domain model (`app/domain/enums.py`, `app/domain/entities.py`) -/

/-- An abstract instant in time, standing for a Python `datetime`. -/
structure DateTime where
  epoch : ℤ
deriving DecidableEq, Repr

inductive InvoiceStatus where
  | draft | pending | issued | failed | canceled
deriving DecidableEq, Repr

inductive InvoiceType where
  | ingreso | traslado
deriving DecidableEq, Repr

/-- The `.value` string of `InvoiceType`. -/
def InvoiceType.value : InvoiceType → String
  | .ingreso => "ingreso"
  | .traslado => "traslado"

inductive ComplementType where
  | carta_porte
deriving DecidableEq, Repr

inductive TransportMode where
  | autotransporte_federal | autotransporte_local | ferroviario | maritimo | aereo
deriving DecidableEq, Repr

inductive ShipmentLocationType where
  | origin | destination
deriving DecidableEq, Repr

/-- The `.value` string of `ShipmentLocationType`. -/
def ShipmentLocationType.value : ShipmentLocationType → String
  | .origin => "Origen"
  | .destination => "Destino"

structure Money where
  amount : ℚ
  currency : String
deriving DecidableEq, Repr

/-- `Money.__post_init__`: construction fails when the amount is negative
(`entities.py` lines 22-25). `Money.make a c` embeds `Money(a, c)`. -/
def Money.make (amount : ℚ) (currency : String) : Except String Money :=
  if amount < 0 then .error "El monto no puede ser negativo"
  else .ok ⟨amount, currency⟩

/-- `Money(a)` with the `currency` dataclass default `"MXN"`. -/
def Money.makeDefault (amount : ℚ) : Except String Money :=
  Money.make amount "MXN"

structure Address where
  street : String
  exterior_number : String
  neighborhood : String
  city : String
  state : String
  country : String
  zip_code : String
deriving DecidableEq, Repr

structure Party where
  legal_name : String
  rfc : String
  tax_regime : String
  email : Option String
  address : Address
  external_uuid : Option String
  id : Option String
deriving DecidableEq, Repr

structure Vehicle where
  configuration : String
  plate : String
  federal_permit : Option String
  insurance_company : Option String
  insurance_policy : Option String
deriving DecidableEq, Repr

structure GoodsItem where
  description : String
  product_key : String
  quantity : ℚ
  unit_key : String
  weight_kg : ℚ
  value : ℚ
  dangerous_material : Bool
  dangerous_key : Option String
deriving DecidableEq, Repr

structure ShipmentLocation where
  type : ShipmentLocationType
  datetime : DateTime
  street : String
  exterior_number : String
  neighborhood : String
  city : String
  state : String
  country : String
  zip_code : String
  latitude : Option ℚ
  longitude : Option ℚ
  reference : Option String
deriving DecidableEq, Repr

structure TransportFigure where
  type : String
  rfc : String
  name : String
  license : Option String
  role_description : Option String
deriving DecidableEq, Repr

structure Shipment where
  transport_mode : TransportMode
  permit_type : String
  permit_number : String
  total_distance_km : Option ℚ
  total_weight_kg : ℚ
  vehicle : Vehicle
  locations : List ShipmentLocation
  goods : List GoodsItem
  figures : List TransportFigure
deriving DecidableEq, Repr

structure InvoiceItem where
  product_key : String
  description : String
  quantity : ℚ
  unit_key : String
  unit_price : ℚ
  taxes : Option (List (String × ℚ))
deriving DecidableEq, Repr

/-! ## Provider response shape (`create_carta_porte.py` lines 83-97)

The orchestrator probes the provider's JSON response at
`data.cfdi_uuid`, top-level `cfdi_uuid`, and `data.cfdi.cfdi_uuid`; the
relevant shape is embedded structurally. -/

structure CfdiBlock where
  cfdi_uuid : Option String
deriving DecidableEq, Repr

structure RespData where
  cfdi_uuid : Option String
  cfdi : Option CfdiBlock
  serie : Option String
  folio : Option ℤ
  factura_id : Option String
  provider : Option String
deriving DecidableEq, Repr

/-- `facturify_response.get("data", {})` with `data` absent. -/
def emptyRespData : RespData := ⟨none, none, none, none, none, none⟩

structure FacturifyResponse where
  data : Option RespData
  cfdi_uuid : Option String
deriving DecidableEq, Repr

structure Invoice where
  issuer_id : Option String
  recipient : Party
  type : InvoiceType
  complement : ComplementType
  currency : String
  subtotal : Money
  total : Money
  cfdi_use : String
  payment_form : String
  payment_method : String
  expedition_place : String
  items : List InvoiceItem
  shipment : Option Shipment
  status : InvoiceStatus
  facturify_uuid : Option String
  facturify_response : Option FacturifyResponse
  serie : Option String
  folio : Option ℤ
  factura_id : Option String
  provider : Option String
  created_at : DateTime
  updated_at : DateTime
  id : String
deriving DecidableEq, Repr

/-- `Invoice.mark_pending` (`entities.py` lines 149-150): sets only the
status. -/
def mark_pending (inv : Invoice) : Invoice :=
  { inv with status := InvoiceStatus.pending }

/-- `Invoice.mark_issued` (`entities.py` lines 152-168). -/
def mark_issued (inv : Invoice) (uuid : String) (payload : FacturifyResponse)
    (serie : Option String) (folio : Option ℤ) (factura_id : Option String)
    (provider : Option String) (now : DateTime) : Invoice :=
  { inv with
    status := InvoiceStatus.issued
    facturify_uuid := some uuid
    facturify_response := some payload
    serie := serie
    folio := folio
    factura_id := factura_id
    provider := provider
    updated_at := now }

/-- `Invoice.mark_failed` (`entities.py` lines 170-172). -/
def mark_failed (inv : Invoice) (now : DateTime) : Invoice :=
  { inv with status := InvoiceStatus.failed, updated_at := now }

/-! ## Provider-format request DTOs (`app/application/dtos/facturify_format.py`)

These mirror the pydantic models the provider-format endpoint parses.
Optional pydantic fields are `Option`; `UUID` fields are embedded as
strings; the timestamp string `FechaHoraSalidaLlegada` is embedded
semantically as a `DateTime` (ISO serialization and parsing treated as
mutually inverse). -/

structure EmisorDTO where
  uuid : String
  razon_social : Option String
  rfc : Option String
  cp : Option String
deriving DecidableEq, Repr

structure ReceptorDTO where
  uuid : String
  rfc : Option String
  razon_social : Option String
  cp : Option String
  regimen : Option String
  metodo_de_pago : Option String
  forma_de_pago : Option String
deriving DecidableEq, Repr

structure DomicilioDTO where
  Calle : String
  CodigoPostal : String
  Estado : String
  Pais : String
  Municipio : Option String
  Localidad : Option String
  NumeroExterior : Option String
  Colonia : Option String
deriving DecidableEq, Repr

structure UbicacionDTO where
  TipoUbicacion : String
  IDUbicacion : String
  RFCRemitenteDestinatario : String
  FechaHoraSalidaLlegada : DateTime
  Domicilio : DomicilioDTO
  DistanciaRecorrida : Option ℚ
deriving DecidableEq, Repr

structure UbicacionesDTO where
  Ubicacion : List UbicacionDTO
deriving DecidableEq, Repr

structure MercanciaDTO where
  BienesTransp : String
  Cantidad : ℚ
  ClaveUnidad : String
  Descripcion : String
  PesoEnKg : ℚ
  MaterialPeligroso : Option String
  CveMaterialPeligroso : Option String
deriving DecidableEq, Repr

structure IdentificacionVehicularDTO where
  ConfigVehicular : String
  PlacaVM : String
  AnioModeloVM : String
  PesoBrutoVehicular : String
deriving DecidableEq, Repr

structure SegurosDTO where
  AseguraRespCivil : String
  PolizaRespCivil : String
  PrimaSeguro : Option String
deriving DecidableEq, Repr

structure RemolqueDTO where
  SubTipoRem : String
  Placa : String
deriving DecidableEq, Repr

structure RemolquesDTO where
  Remolque : List RemolqueDTO
deriving DecidableEq, Repr

structure AutotransporteDTO where
  PermSCT : String
  NumPermisoSCT : String
  IdentificacionVehicular : IdentificacionVehicularDTO
  Seguros : SegurosDTO
  Remolques : Option RemolquesDTO
deriving DecidableEq, Repr

structure MercanciasDTO where
  NumTotalMercancias : ℤ
  PesoNetoTotal : ℚ
  PesoBrutoTotal : ℚ
  UnidadPeso : String
  Mercancia : List MercanciaDTO
  Autotransporte : AutotransporteDTO
deriving DecidableEq, Repr

structure TipoFiguraDTO where
  TipoFigura : String
  RFCFigura : String
  NumLicencia : Option String
  NombreFigura : String
deriving DecidableEq, Repr

structure FiguraTransporteDTO where
  TiposFigura : List TipoFiguraDTO
deriving DecidableEq, Repr

structure CartaPorteComplementoDTO where
  Version : String
  IdCCP : Option String
  TranspInternac : String
  TotalDistRec : ℚ
  Ubicaciones : UbicacionesDTO
  Mercancias : MercanciasDTO
  FiguraTransporte : FiguraTransporteDTO
deriving DecidableEq, Repr

structure ComplementoDTO where
  CartaPorte : CartaPorteComplementoDTO
deriving DecidableEq, Repr

structure TrasladoDTO where
  base : ℚ
  impuesto : String
  tipoFactor : String
  tasaOCuota : ℚ
  importe : ℚ
deriving DecidableEq, Repr

structure TrasladosDTO where
  traslado : List TrasladoDTO
deriving DecidableEq, Repr

structure ImpuestosConceptoDTO where
  traslados : Option TrasladosDTO
deriving DecidableEq, Repr

structure ConceptoDTO where
  cantidad : ℚ
  clave_producto_servicio : String
  clave_unidad_de_medida : String
  descripcion : String
  valor_unitario : ℚ
  total : ℚ
  objeto_imp : String
  impuestos : Option ImpuestosConceptoDTO
deriving DecidableEq, Repr

structure FacturaDTO where
  version : String
  fecha : String
  tipo : String
  forma_de_pago : String
  metodo_de_pago : String
  moneda : String
  tipo_de_cambio : String
  exportacion : String
  subtotal : ℚ
  impuesto_federal : Option ℚ
  total : ℚ
  serie : Option String
  folio : Option String
  uso_cfdi : Option String
  lugar_expedicion : Option String
  conceptos : List ConceptoDTO
  Complemento : ComplementoDTO
deriving DecidableEq, Repr

structure FacturifyCartaPorteRequest where
  emisor : EmisorDTO
  receptor : ReceptorDTO
  factura : FacturaDTO
deriving DecidableEq, Repr

/-! ## Outbound payload builder (`facturify_payload.py`, `FacturifyPayloadBuilder`)

The builder renders a Python dict; the dict's shape is exactly the
provider-format request, so the embedding renders the parsed form
directly.  Keys the builder never writes take the DTO parse defaults
(`none`); `build` returns `none` where the dict the builder would emit
cannot parse as a `FacturifyCartaPorteRequest` (or where the builder
itself raises). -/

/-- `FacturifyPayloadBuilder._concepto` (lines 58-82). -/
def concepto (item : InvoiceItem) : ConceptoDTO :=
  { cantidad := item.quantity
    clave_producto_servicio := item.product_key
    clave_unidad_de_medida := item.unit_key
    descripcion := item.description
    valor_unitario := item.unit_price
    total := round2 (item.quantity * item.unit_price)
    objeto_imp := "02"
    impuestos :=
      match truthyIva item.taxes with
      | none => none
      | some v => some
          { traslados := some
              { traslado :=
                  [{ base := round2 (item.quantity * item.unit_price)
                     impuesto := "002"
                     tipoFactor := "Tasa"
                     tasaOCuota := v / 100
                     importe := round2 ((item.quantity * item.unit_price) * (v / 100)) }] } } }

/-- `FacturifyPayloadBuilder._ubicacion` (lines 166-200).  The code reads
`invoice.shipment.total_distance_km`; the caller has already asserted the
shipment non-null, so the shipment is passed explicitly.  The domain
`ShipmentLocation` has no `locality` attribute, so the
`hasattr(location, "locality")` guard is always false and `Localidad` is
never emitted; `NumeroExterior` and `Colonia` are never emitted either. -/
def ubicacion (index : ℕ) (location : ShipmentLocation) (invoice : Invoice)
    (issuer : Party) (shipment : Shipment) : UbicacionDTO :=
  let is_origin := location.type = ShipmentLocationType.origin
  { TipoUbicacion := pyCapitalize location.type.value
    IDUbicacion := (if is_origin then "OR" else "DE") ++ pad6 (index - 1)
    RFCRemitenteDestinatario := if is_origin then issuer.rfc else invoice.recipient.rfc
    FechaHoraSalidaLlegada := location.datetime
    Domicilio :=
      { Calle := location.street
        CodigoPostal := location.zip_code
        Municipio := if location.city == "" then none else some location.city
        Localidad := none
        NumeroExterior := none
        Colonia := none
        Estado := location.state
        Pais := location.country }
    DistanciaRecorrida :=
      if is_origin then none
      else some ((pyInt (shipment.total_distance_km.getD 0) : ℚ)) }

/-- The `ubicaciones` comprehension of `_carta_porte` (lines 88-91):
`enumerate(shipment.locations, start=1)`. -/
def ubicaciones (shipment : Shipment) (invoice : Invoice) (issuer : Party) :
    List UbicacionDTO :=
  (enumFrom 1 shipment.locations).map
    (fun p => ubicacion p.1 p.2 invoice issuer shipment)

/-- One entry of the `Mercancia` comprehension (lines 97-108).  The
dangerous-material keys are merged in only when the flag is true and the
key truthy. -/
def mercanciaOf (good : GoodsItem) : MercanciaDTO :=
  let danger := good.dangerous_material && truthyStr good.dangerous_key
  { BienesTransp := good.product_key
    Cantidad := good.quantity
    ClaveUnidad := good.unit_key
    Descripcion := good.description
    PesoEnKg := good.weight_kg
    MaterialPeligroso := if danger then some "Si" else none
    CveMaterialPeligroso := if danger then good.dangerous_key else none }

/-- `FacturifyPayloadBuilder._autotransporte` (lines 136-164).  The domain
`Vehicle` has no `model_year`, `gross_weight`, `insurance_premium` or
`trailers` slots, so the `getattr`/`hasattr` defaults apply. -/
def autotransporte (shipment : Shipment) : AutotransporteDTO :=
  { PermSCT := shipment.permit_type
    NumPermisoSCT := shipment.permit_number
    IdentificacionVehicular :=
      { ConfigVehicular := shipment.vehicle.configuration
        PlacaVM := shipment.vehicle.plate
        AnioModeloVM := "2025"
        PesoBrutoVehicular := "46.5" }
    Seguros :=
      { AseguraRespCivil := pyOrStr shipment.vehicle.insurance_company ""
        PolizaRespCivil := pyOrStr shipment.vehicle.insurance_policy ""
        PrimaSeguro := some "1200" }
    Remolques := none }

/-- The `mercancias` block of `_carta_porte` (lines 92-110). -/
def mercanciasOf (shipment : Shipment) : MercanciasDTO :=
  { NumTotalMercancias := shipment.goods.length
    PesoNetoTotal := (shipment.goods.map (·.weight_kg)).sum
    PesoBrutoTotal := shipment.total_weight_kg
    UnidadPeso := "KGM"
    Mercancia := shipment.goods.map mercanciaOf
    Autotransporte := autotransporte shipment }

/-- `FacturifyPayloadBuilder._transporte_internacional` (lines 202-205). -/
def transporte_internacional (locations : List ShipmentLocation) : String :=
  if locations.any (fun l => !(l.country == "MEX")) then "Si" else "No"

/-- One entry of the `TiposFigura` comprehension (lines 120-128). -/
def tipoFiguraOf (figure : TransportFigure) : TipoFiguraDTO :=
  { TipoFigura := figure.type
    RFCFigura := figure.rfc
    NumLicencia := some (pyOrStr figure.license "")
    NombreFigura := figure.name }

/-- `FacturifyPayloadBuilder._carta_porte` (lines 84-134), composed with the
parse of the resulting dict.  When `shipment.figures` is empty the builder
sets the `FiguraTransporte` value to `None` and the final dict
comprehension drops the key; the provider DTO requires that field, so the
dict then fails to parse and the result is `none`.  `ccp` stands for the
freshly generated `IdCCP` uuid. -/
def carta_porte (invoice : Invoice) (issuer : Party) (shipment : Shipment)
    (ccp : String) : Option CartaPorteComplementoDTO :=
  match shipment.figures with
  | [] => none
  | f :: fs => some
      { Version := "3.1"
        IdCCP := some ccp
        TranspInternac := transporte_internacional shipment.locations
        TotalDistRec := (pyInt (shipment.total_distance_km.getD 0) : ℚ)
        Ubicaciones := ⟨ubicaciones shipment invoice issuer⟩
        Mercancias := mercanciasOf shipment
        FiguraTransporte := ⟨(f :: fs).map tipoFiguraOf⟩ }

/-- `FacturifyPayloadBuilder.build` (lines 15-44), composed with the parse
of the resulting dict.  `build` raises when the invoice has no shipment;
when the recipient has no truthy `external_uuid` the builder renders the
inline `_receptor` block, which has no `uuid` key, so the dict cannot
parse as a provider-format request (whose `ReceptorDTO.uuid` is required)
and the result is `none`.  `fecha` stands for `datetime.now()`
formatted. -/
def build (account_uuid : String) (invoice : Invoice) (issuer : Party)
    (fecha : String) (ccp : String) : Option FacturifyCartaPorteRequest :=
  match invoice.shipment with
  | none => none
  | some shipment =>
    match carta_porte invoice issuer shipment ccp with
    | none => none
    | some cp =>
      match invoice.recipient.external_uuid with
      | none => none
      | some r =>
        if r == "" then none
        else some
          { emisor :=
              { uuid := pyOrStr issuer.external_uuid account_uuid
                razon_social := none, rfc := none, cp := none }
            receptor :=
              { uuid := r, rfc := none, razon_social := none, cp := none
                regimen := none, metodo_de_pago := none, forma_de_pago := none }
            factura :=
              { version := "4.0"
                fecha := fecha
                tipo := invoice.type.value
                forma_de_pago := invoice.payment_form
                metodo_de_pago := "PUE"
                moneda := invoice.currency
                tipo_de_cambio := "1"
                exportacion := "01"
                subtotal := invoice.subtotal.amount
                impuesto_federal :=
                  some (round2 (invoice.total.amount - invoice.subtotal.amount))
                total := invoice.total.amount
                serie := none
                folio := none
                uso_cfdi := none
                lugar_expedicion := none
                conceptos := invoice.items.map concepto
                Complemento := ⟨cp⟩ } }

/-! ## Internal request DTOs (`app/application/dtos/carta_porte.py`) -/

structure AddressDTO where
  street : String
  exterior_number : String
  neighborhood : String
  city : String
  state : String
  country : String
  zip_code : String
deriving DecidableEq, Repr

structure PartyDTO where
  legal_name : String
  rfc : String
  tax_regime : String
  email : Option String
  address : AddressDTO
deriving DecidableEq, Repr

structure InvoiceItemDTO where
  product_key : String
  description : String
  quantity : ℚ
  unit_key : String
  unit_price : ℚ
  tax_percentage : Option ℚ
deriving DecidableEq, Repr

structure ShipmentVehicleDTO where
  configuration : String
  plate : String
  federal_permit : Option String
  insurance_company : Option String
  insurance_policy : Option String
  model_year : Option String
  gross_weight : Option String
  insurance_premium : Option String
  trailers : Option (List (String × String))
deriving DecidableEq, Repr

structure ShipmentLocationDTO where
  type : ShipmentLocationType
  datetime : DateTime
  street : String
  exterior_number : String
  neighborhood : String
  city : String
  state : String
  country : String
  zip_code : String
  latitude : Option ℚ
  longitude : Option ℚ
  reference : Option String
  locality : Option String
deriving DecidableEq, Repr

structure ShipmentGoodsDTO where
  description : String
  product_key : String
  quantity : ℚ
  unit_key : String
  weight_kg : ℚ
  value : ℚ
  dangerous_material : Bool
  dangerous_key : Option String
deriving DecidableEq, Repr

structure TransportFigureDTO where
  type : String
  rfc : String
  name : String
  license : Option String
  role_description : Option String
deriving DecidableEq, Repr

structure ShipmentDTO where
  transport_mode : String
  permit_type : String
  permit_number : String
  total_distance_km : Option ℚ
  total_weight_kg : ℚ
  vehicle : ShipmentVehicleDTO
  locations : List ShipmentLocationDTO
  goods : List ShipmentGoodsDTO
  figures : List TransportFigureDTO
deriving DecidableEq, Repr

structure CartaPorteRequest where
  facturify_issuer_uuid : String
  cfdi_type : String
  recipient : PartyDTO
  cfdi_use : String
  payment_form : String
  payment_method : String
  expedition_place : String
  currency : String
  subtotal : ℚ
  total : ℚ
  items : List InvoiceItemDTO
  shipment : ShipmentDTO
deriving DecidableEq, Repr

/-! ## Inbound transformer (`facturify_to_internal.py`, `FacturifyToInternalTransformer`)

`transform` is embedded as an `Option`-valued function: it is `none`
exactly where the Python code raises.  The only failing operation is the
`Ubicacion[0]` indexing (line 116); the division
`factura.subtotal / len(...)` (line 67) sits inside the per-merchandise
comprehension, so when the `Mercancia` list is empty it is never
executed. -/

/-- `FacturifyToInternalTransformer._extract_tax_percentage`
(lines 148-158): the first `"002"` traslado's `tasaOCuota * 100`. -/
def findTax002 : List TrasladoDTO → Option ℚ
  | [] => none
  | t :: ts => if t.impuesto == "002" then some (t.tasaOCuota * 100) else findTax002 ts

def extract_tax_percentage (c : ConceptoDTO) : Option ℚ :=
  match c.impuestos with
  | none => none
  | some imp =>
    match imp.traslados with
    | none => none
    | some tr => findTax002 tr.traslado

/-- One entry of the `items` comprehension (lines 30-40). -/
def transformItem (c : ConceptoDTO) : InvoiceItemDTO :=
  { product_key := c.clave_producto_servicio
    description := c.descripcion
    quantity := c.cantidad
    unit_key := c.clave_unidad_de_medida
    unit_price := c.valor_unitario
    tax_percentage := extract_tax_percentage c }

/-- One entry of the `locations` comprehension (lines 42-58). -/
def transformLocation (u : UbicacionDTO) : ShipmentLocationDTO :=
  { type := if u.TipoUbicacion == "Origen" then ShipmentLocationType.origin
            else ShipmentLocationType.destination
    datetime := u.FechaHoraSalidaLlegada
    street := u.Domicilio.Calle
    exterior_number := pyOrStr u.Domicilio.NumeroExterior "S/N"
    neighborhood := pyOrStr u.Domicilio.Colonia ""
    city := pyOrStr u.Domicilio.Municipio ""
    state := u.Domicilio.Estado
    country := u.Domicilio.Pais
    zip_code := u.Domicilio.CodigoPostal
    latitude := none
    longitude := none
    reference := none
    locality := u.Domicilio.Localidad }

/-- One entry of the `goods` comprehension (lines 60-72); `subtotal` and
`n` stand for `factura.subtotal` and `len(carta_porte.Mercancias.Mercancia)`
evaluated inside the loop body. -/
def transformGood (subtotal : ℚ) (n : ℕ) (m : MercanciaDTO) : ShipmentGoodsDTO :=
  { description := m.Descripcion
    product_key := m.BienesTransp
    quantity := m.Cantidad
    unit_key := m.ClaveUnidad
    weight_kg := m.PesoEnKg
    value := subtotal / (n : ℚ)
    dangerous_material := truthyStr m.MaterialPeligroso
    dangerous_key := m.CveMaterialPeligroso }

/-- One entry of the `figures` comprehension (lines 74-82). -/
def transformFigure (f : TipoFiguraDTO) : TransportFigureDTO :=
  { type := f.TipoFigura
    rfc := f.RFCFigura
    name := f.NombreFigura
    license := f.NumLicencia
    role_description := none }

/-- The `trailers` extraction (lines 85-90): present only when `Remolques`
is truthy and its `Remolque` list non-empty. -/
def transformTrailers (auto : AutotransporteDTO) : Option (List (String × String)) :=
  match auto.Remolques with
  | none => none
  | some r =>
    if r.Remolque.isEmpty then none
    else some (r.Remolque.map (fun t => (t.SubTipoRem, t.Placa)))

/-! ### Pydantic validation of the internal DTOs

The internal request DTOs of `carta_porte.py` are pydantic models with
constrained fields, and pydantic v2 validates at construction, so each
DTO the transformer builds can raise a `ValidationError` inside
`transform`.  The validators below embed those field constraints. -/

/-- One character of the `[A-Z]` class. -/
def isAsciiUpper (c : Char) : Bool := 'A' ≤ c && c ≤ 'Z'

/-- One character of the RFC pattern's leading class `[A-Z&Ñ]`. -/
def rfcHeadChar (c : Char) : Bool := isAsciiUpper c || c == '&' || c == 'Ñ'

/-- One character of the class `[A-Z0-9]`. -/
def rfcTailChar (c : Char) : Bool := isAsciiUpper c || c.isDigit

/-- The RFC pattern of `carta_porte.py`:
`^[A-Z&Ñ]{3,4}\d{6}[A-Z0-9]{3}$` (3 or 4 head characters, 6 digits,
3 alphanumeric characters). -/
def matchesRfc (s : String) : Bool :=
  let cs := s.toList
  (cs.length = 12 || cs.length = 13)
  && (cs.take (cs.length - 9)).all rfcHeadChar
  && ((cs.drop (cs.length - 9)).take 6).all Char.isDigit
  && (cs.drop (cs.length - 3)).all rfcTailChar

/-- The 5-digit zip pattern `^\d{5}$`. -/
def matchesZip5 (s : String) : Bool :=
  s.toList.length = 5 && s.toList.all Char.isDigit

/-- The plate pattern `^[A-Z0-9]{5,10}$` of `ShipmentVehicleDTO`. -/
def matchesPlate (s : String) : Bool :=
  let cs := s.toList
  5 ≤ cs.length && cs.length ≤ 10 && cs.all rfcTailChar

/-- `AddressDTO` constraints: street length 1-120, exterior number length
1-12, 5-digit zip. -/
def AddressDTO.valid (a : AddressDTO) : Bool :=
  decide (1 ≤ a.street.length) && decide (a.street.length ≤ 120)
  && decide (1 ≤ a.exterior_number.length) && decide (a.exterior_number.length ≤ 12)
  && matchesZip5 a.zip_code

/-- `PartyDTO` constraints: the RFC pattern, plus its nested address
(which the transformer constructs, and pydantic validates, alongside it);
the transformer always passes `email=None`, which the optional `EmailStr`
field accepts. -/
def PartyDTO.valid (p : PartyDTO) : Bool :=
  matchesRfc p.rfc && p.address.valid

/-- `InvoiceItemDTO` constraints: quantity > 0, unit_price > 0,
tax_percentage ≥ 0 when present. -/
def InvoiceItemDTO.valid (it : InvoiceItemDTO) : Bool :=
  decide (0 < it.quantity) && decide (0 < it.unit_price)
  && (match it.tax_percentage with
      | none => true
      | some p => decide (0 ≤ p))

/-- `ShipmentVehicleDTO` constraints: the plate pattern. -/
def ShipmentVehicleDTO.valid (v : ShipmentVehicleDTO) : Bool :=
  matchesPlate v.plate

/-- `ShipmentLocationDTO` constraints: 5-digit zip, latitude/longitude
bounds when present, reference length at most 200. -/
def ShipmentLocationDTO.valid (l : ShipmentLocationDTO) : Bool :=
  matchesZip5 l.zip_code
  && (match l.latitude with
      | none => true
      | some x => decide (-90 ≤ x) && decide (x ≤ 90))
  && (match l.longitude with
      | none => true
      | some x => decide (-180 ≤ x) && decide (x ≤ 180))
  && (match l.reference with
      | none => true
      | some s => decide (s.length ≤ 200))

/-- `ShipmentGoodsDTO` constraints: quantity > 0, weight > 0, value ≥ 0. -/
def ShipmentGoodsDTO.valid (g : ShipmentGoodsDTO) : Bool :=
  decide (0 < g.quantity) && decide (0 < g.weight_kg) && decide (0 ≤ g.value)

/-- `TransportFigureDTO` constraints: the RFC pattern, role description
length at most 120. -/
def TransportFigureDTO.valid (f : TransportFigureDTO) : Bool :=
  matchesRfc f.rfc
  && (match f.role_description with
      | none => true
      | some s => decide (s.length ≤ 120))

/-- `ShipmentDTO` constraints: the transport-mode literal and
total_weight_kg > 0, together with the constraints pydantic checked when
the nested vehicle/location/goods/figure DTOs were constructed earlier in
the transform body. -/
def ShipmentDTO.valid (s : ShipmentDTO) : Bool :=
  (s.transport_mode == "01" || s.transport_mode == "02"
    || s.transport_mode == "03" || s.transport_mode == "04"
    || s.transport_mode == "05")
  && decide (0 < s.total_weight_kg)
  && s.vehicle.valid
  && s.locations.all ShipmentLocationDTO.valid
  && s.goods.all ShipmentGoodsDTO.valid
  && s.figures.all TransportFigureDTO.valid

/-- All pydantic validation the Python `transform` performs while
constructing its result: the cfdi-type literal, the recipient (with its
address), the 5-digit expedition place, subtotal/total > 0, every item,
and the shipment with its nested DTOs.  Each nested DTO is validated at
its own construction site inside `transform`; the conjunction is the
same. -/
def CartaPorteRequest.valid (r : CartaPorteRequest) : Bool :=
  (r.cfdi_type == "ingreso" || r.cfdi_type == "traslado")
  && r.recipient.valid
  && matchesZip5 r.expedition_place
  && decide (0 < r.subtotal) && decide (0 < r.total)
  && r.items.all InvoiceItemDTO.valid
  && r.shipment.valid

/-- The record `FacturifyToInternalTransformer.transform` (lines 24-146)
builds from a request and its first location, before pydantic
validation. -/
def transformCore (req : FacturifyCartaPorteRequest)
    (first_location : UbicacionDTO) : CartaPorteRequest :=
  let factura := req.factura
  let cp := factura.Complemento.CartaPorte
  let auto := cp.Mercancias.Autotransporte
    let vehicle : ShipmentVehicleDTO :=
      { configuration := auto.IdentificacionVehicular.ConfigVehicular
        plate := auto.IdentificacionVehicular.PlacaVM
        federal_permit := some auto.PermSCT
        insurance_company := some auto.Seguros.AseguraRespCivil
        insurance_policy := some auto.Seguros.PolizaRespCivil
        model_year := some auto.IdentificacionVehicular.AnioModeloVM
        gross_weight := some auto.IdentificacionVehicular.PesoBrutoVehicular
        insurance_premium := auto.Seguros.PrimaSeguro
        trailers := transformTrailers auto }
    let shipment : ShipmentDTO :=
      { transport_mode := "01"
        permit_type := auto.PermSCT
        permit_number := auto.NumPermisoSCT
        total_distance_km := some cp.TotalDistRec
        total_weight_kg := cp.Mercancias.PesoBrutoTotal
        vehicle := vehicle
        locations := cp.Ubicaciones.Ubicacion.map transformLocation
        goods := cp.Mercancias.Mercancia.map
          (transformGood factura.subtotal cp.Mercancias.Mercancia.length)
        figures := cp.FiguraTransporte.TiposFigura.map transformFigure }
    let recipient : PartyDTO :=
      { legal_name := pyOrStr req.receptor.razon_social "PUBLICO EN GENERAL"
        rfc := pyOrStr req.receptor.rfc first_location.RFCRemitenteDestinatario
        tax_regime := pyOrStr req.receptor.regimen "616"
        email := none
        address :=
          { street := first_location.Domicilio.Calle
            exterior_number := pyOrStr first_location.Domicilio.NumeroExterior "S/N"
            neighborhood := pyOrStr first_location.Domicilio.Colonia ""
            city := pyOrStr first_location.Domicilio.Municipio ""
            state := first_location.Domicilio.Estado
            country := first_location.Domicilio.Pais
            zip_code := pyOrStr req.receptor.cp first_location.Domicilio.CodigoPostal } }
    { facturify_issuer_uuid := req.emisor.uuid
      cfdi_type := factura.tipo
      recipient := recipient
      cfdi_use := pyOrStr factura.uso_cfdi "G01"
      payment_form := pyOrStr req.receptor.forma_de_pago factura.forma_de_pago
      payment_method := pyOrStr req.receptor.metodo_de_pago factura.metodo_de_pago
      expedition_place := pyOrStr req.emisor.cp first_location.Domicilio.CodigoPostal
      currency := factura.moneda
      subtotal := factura.subtotal
      total := factura.total
      items := factura.conceptos.map transformItem
      shipment := shipment }

/-- `FacturifyToInternalTransformer.transform` (lines 24-146), embedded as
an `Option`-valued function: `none` exactly where the Python code raises.
The `Ubicacion[0]` indexing (line 116) raises on an empty location list;
the pydantic constructions of the internal DTOs throughout the body raise
`ValidationError` when a field constraint fails (collected in
`CartaPorteRequest.valid`); the division `factura.subtotal / len(...)`
(line 67) sits inside the per-merchandise comprehension, so when the
`Mercancia` list is empty it is never executed. -/
def transform (req : FacturifyCartaPorteRequest) : Option CartaPorteRequest :=
  match req.factura.Complemento.CartaPorte.Ubicaciones.Ubicacion with
  | [] => none
  | first_location :: _ =>
    let result := transformCore req first_location
    if CartaPorteRequest.valid result then some result else none

/-- The full round trip of §8 of the spec: render the provider payload from
a domain invoice, then re-parse it with the inbound transformer. -/
def round_trip (account_uuid : String) (invoice : Invoice) (issuer : Party)
    (fecha : String) (ccp : String) : Option CartaPorteRequest :=
  (build account_uuid invoice issuer fecha ccp).bind transform

/-! ## Auth session manager (`facturify_auth_client.py`) -/

/-- The `jwt` block of the provider's auth responses: token and TTL. -/
structure TokenData where
  token : String
  expires_in : ℤ
deriving DecidableEq, Repr

/-- The default of `Settings.facturify_token_refresh_buffer`
(`core/config.py` line 36). -/
def facturify_token_refresh_buffer_default : ℤ := 60

/-- Result of one `get_valid_token()` call: the returned token and how many
times each network entry point was invoked. -/
structure TokenFetch where
  token : String
  obtain_calls : ℕ
  refresh_calls : ℕ
deriving DecidableEq, Repr

/-- `FacturifyAuthClient.get_valid_token` (lines 156-172).  `cached` is the
token in the Redis cache, `ttl` its remaining TTL, `buffer` the configured
refresh buffer; `obtain_result` and `refresh_result` are the tokens the
respective network calls would return. -/
def get_valid_token (cached : Option String) (ttl : ℤ) (buffer : ℤ)
    (obtain_result refresh_result : String) : TokenFetch :=
  if truthyStr cached = false then ⟨obtain_result, 1, 0⟩
  else if ttl < buffer then ⟨refresh_result, 0, 1⟩
  else ⟨cached.getD "", 0, 0⟩

/-- Result of one `refresh_token()` call. -/
structure RefreshOutcome where
  result : Except String TokenData
  cache_write : Option TokenData
  obtained : Bool
  bearer : Option String
deriving Repr

/-- The effect of delegating to `obtain_token()` (lines 65-107): on success
it caches the token and TTL it received and returns them; on failure it
raises. -/
def obtain_effect (obtain : Except String TokenData) : RefreshOutcome :=
  match obtain with
  | .ok d => ⟨.ok d, some d, true, none⟩
  | .error e => ⟨.error e, none, true, none⟩

/-- `FacturifyAuthClient.refresh_token` (lines 114-154).  `cached` is the
cached token; `status`/`respJwt` describe the refresh endpoint's response;
`obtain` is the outcome `obtain_token()` would produce. -/
def refresh_token (cached : Option String) (status : ℕ) (respJwt : TokenData)
    (obtain : Except String TokenData) : RefreshOutcome :=
  if truthyStr cached = false then obtain_effect obtain
  else
    let t := cached.getD ""
    if status = 200 then ⟨.ok respJwt, some respJwt, false, some t⟩
    else if status = 401 then { obtain_effect obtain with bearer := some t }
    else ⟨.error ("Unexpected response: " ++ toString status), none, false, some t⟩

/-! ## Orchestrator (`create_carta_porte.py`, `CreateCartaPorteService.execute`) -/

/-- Outcome of the provider call `cfdi_provider.create_carta_porte`:
either a parsed JSON response or a raised exception. -/
inductive ProviderOutcome where
  | ok (resp : FacturifyResponse)
  | error (msg : String)
deriving Repr

/-- What `execute` does after the invoice has been created `pending`:
`result` is what the caller sees (`.error` = the raised
`ExternalServiceError`), `persisted` is the invoice state written by
`uow.invoices.update` in the follow-up transaction. -/
structure ExecOutcome where
  result : Except String Invoice
  persisted : Invoice
deriving Repr

/-- `CreateCartaPorteService.execute`, lines 55-104: the part after the
first transaction.  On a provider exception the invoice is marked failed,
persisted, and the error re-raised as `ExternalServiceError`; otherwise
the cfdi uuid is probed at the three nesting locations and the invoice
marked issued or failed accordingly, then persisted. -/
def execute_after_create (invoice : Invoice) (outcome : ProviderOutcome)
    (now : DateTime) : ExecOutcome :=
  match outcome with
  | .error msg =>
    let failed := mark_failed invoice now
    ⟨.error msg, failed⟩
  | .ok resp =>
    let data := resp.data.getD emptyRespData
    let cfdi_uuid := pyOr data.cfdi_uuid (pyOr resp.cfdi_uuid (data.cfdi.getD ⟨none⟩).cfdi_uuid)
    if truthyStr cfdi_uuid then
      let issued := mark_issued invoice (cfdi_uuid.getD "") resp
        data.serie data.folio data.factura_id data.provider now
      ⟨.ok issued, issued⟩
    else
      let failed := mark_failed invoice now
      ⟨.ok failed, failed⟩

/-! ## Concrete sample data (used by witnesses and counterexamples) -/

def sampleAddress : Address :=
  ⟨"Calle 1", "10", "Centro", "CDMX", "CMX", "MEX", "01020"⟩

def sampleIssuer : Party :=
  ⟨"Transportes SA", "AAA010101AAA", "601", some "issuer@example.com",
   sampleAddress, some "de305d54-75b4-431b-adb2-eb6b9e546014", none⟩

def sampleRecipient : Party :=
  ⟨"Cliente Demo", "CCC010101CCC", "601", none, sampleAddress,
   some "96076f99-7105-4a62-a732-1ea33d88f4a0", none⟩

def sampleVehicle : Vehicle :=
  ⟨"VL", "ABC1234", some "TPAF02", some "AXA Seguros", some "DAA667380000"⟩

def sampleGood : GoodsItem :=
  ⟨"Carga", "78101800", 1, "E48", 1000, 10000, false, none⟩

def sampleFigure : TransportFigure :=
  ⟨"01", "AAA010101AAA", "Operador", some "LFD01011247", none⟩

def sampleLocO : ShipmentLocation :=
  ⟨ShipmentLocationType.origin, ⟨100⟩, "Calle 1", "10", "Centro", "CDMX",
   "CMX", "MEX", "01020", none, none, none⟩

def sampleLocD1 : ShipmentLocation :=
  ⟨ShipmentLocationType.destination, ⟨200⟩, "Calle 2", "20", "Centro", "GDL",
   "JAL", "MEX", "44100", none, none, none⟩

def sampleLocD2 : ShipmentLocation :=
  ⟨ShipmentLocationType.destination, ⟨300⟩, "Calle 3", "30", "Centro", "MTY",
   "NLE", "MEX", "64000", none, none, none⟩

def sampleShipment : Shipment :=
  ⟨TransportMode.autotransporte_federal, "TPAF", "123", some 100, 1000,
   sampleVehicle, [sampleLocO, sampleLocD1, sampleLocD2], [sampleGood],
   [sampleFigure]⟩

def sampleItem : InvoiceItem :=
  ⟨"78101800", "Servicio", 1, "E48", 10000, some [("iva", 16)]⟩

def sampleInvoice : Invoice :=
  ⟨none, sampleRecipient, InvoiceType.ingreso, ComplementType.carta_porte,
   "MXN", ⟨10000, "MXN"⟩, ⟨11600, "MXN"⟩, "G01", "03", "PUE", "01020",
   [sampleItem], some sampleShipment, InvoiceStatus.draft, none, none, none,
   none, none, none, ⟨0⟩, ⟨0⟩, "inv-1"⟩

/-- A shipment identical to `sampleShipment` but with no transport figures
(the spec's data model allows an empty figure list). -/
def sampleShipmentNoFigures : Shipment :=
  { sampleShipment with figures := [] }

def sampleInvoiceNoFigures : Invoice :=
  { sampleInvoice with shipment := some sampleShipmentNoFigures }

/-- An invoice item exhibiting the importe-rounding divergence:
quantity 1, unit price 1.034, iva 16%. -/
def c2CounterItem : InvoiceItem :=
  ⟨"78101800", "Servicio", 1, "E48", 1034 / 1000, some [("iva", 16)]⟩

/-- The spec's exemplar concept: quantity 2, unit price 50, iva 16. -/
def c2ExemplarItem : InvoiceItem :=
  ⟨"78101800", "Servicio", 2, "E48", 50, some [("iva", 16)]⟩

/-- An invoice item whose taxes dict carries `iva` mapped to `0`. -/
def zeroIvaItem : InvoiceItem :=
  ⟨"78101800", "Servicio", 2, "E48", 50, some [("iva", 0)]⟩

/-- An invoice item with no taxes dict at all. -/
def noTaxItem : InvoiceItem :=
  ⟨"78101800", "Servicio", 1, "E48", 10, none⟩

/-- A provider-format request with one location and an empty `Mercancia`
list. -/
def c9Domicilio : DomicilioDTO :=
  ⟨"Calle 1", "01020", "CMX", "MEX", none, none, none, none⟩

def c9Ubicacion : UbicacionDTO :=
  ⟨"Origen", "OR000000", "AAA010101AAA", ⟨100⟩, c9Domicilio, none⟩

def c9Auto : AutotransporteDTO :=
  ⟨"TPAF02", "123", ⟨"T3S2", "05BH7S", "2025", "46.5"⟩,
   ⟨"AXA", "POL-1", some "1200"⟩, none⟩

def c9Mercancias : MercanciasDTO :=
  ⟨0, 0, 1000, "KGM", [], c9Auto⟩

def c9CartaPorte : CartaPorteComplementoDTO :=
  ⟨"3.1", none, "No", 0, ⟨[c9Ubicacion]⟩, c9Mercancias, ⟨[]⟩⟩

def c9Factura : FacturaDTO :=
  ⟨"4.0", "2026-01-01 00:00:00", "ingreso", "03", "PUE", "MXN", "1", "01",
   10, some 2, 12, none, none, none, none, [], ⟨c9CartaPorte⟩⟩

def c9Req : FacturifyCartaPorteRequest :=
  ⟨⟨"E-UUID", none, none, none⟩,
   ⟨"R-UUID", none, none, none, none, none, none⟩, c9Factura⟩

/-- The same request with an empty `Ubicacion` list. -/
def c9ReqNoLoc : FacturifyCartaPorteRequest :=
  { c9Req with
    factura := { c9Factura with
      Complemento := ⟨{ c9CartaPorte with Ubicaciones := ⟨[]⟩ }⟩ } }

/-- `c9Ubicacion` with the zip code replaced by `"ABC"`, violating the
`^\d{5}$` pattern of `ShipmentLocationDTO`/`AddressDTO`. -/
def c9BadZipUbicacion : UbicacionDTO :=
  { c9Ubicacion with Domicilio := { c9Domicilio with CodigoPostal := "ABC" } }

/-- `c9Req` with the malformed-zip location: non-empty `Ubicacion`, yet
the internal DTO validation rejects it. -/
def c9BadZipReq : FacturifyCartaPorteRequest :=
  { c9Req with
    factura := { c9Factura with
      Complemento := ⟨{ c9CartaPorte with
        Ubicaciones := ⟨[c9BadZipUbicacion]⟩ }⟩ } }

/-- A goods-free variant of the sample shipment, paired below with an
untaxed item, so that the full round trip forces no rational division and
is evaluable by kernel reduction. -/
def c3WitnessShipment : Shipment := { sampleShipment with goods := [] }

def c3WitnessInvoice : Invoice :=
  { sampleInvoice with
    items := [noTaxItem], shipment := some c3WitnessShipment }

/-! ## Spec-side definitions

These follow the spec's words (not the code) and are compared against the
code-derived definitions above. -/

/-- Modelled from the spec: the claimed concept VAT amount, `importe =
base × rate rounded to 2 decimals` where `base = quantity × unit_price
rounded to 2 decimals` and `rate = percentage / 100`. -/
def specImporte (item : InvoiceItem) (percentage : ℚ) : ℚ :=
  round2 (round2 (item.quantity * item.unit_price) * (percentage / 100))

/-- The item the round trip is expected to reproduce: the five payload
fields are preserved and the tax percentage is the truthy `iva` entry
(a present non-zero percentage is reproduced exactly; a missing or zero
one is dropped). -/
def expectedItem (item : InvoiceItem) : InvoiceItemDTO :=
  { product_key := item.product_key
    description := item.description
    quantity := item.quantity
    unit_key := item.unit_key
    unit_price := item.unit_price
    tax_percentage := truthyIva item.taxes }

/-- The location the round trip is expected to reproduce: type, timestamp,
street, city, state, country and zip are preserved; the exterior number
and neighborhood are defaulted by the provider format. -/
def expectedLocation (l : ShipmentLocation) : ShipmentLocationDTO :=
  { type := l.type
    datetime := l.datetime
    street := l.street
    exterior_number := "S/N"
    neighborhood := ""
    city := l.city
    state := l.state
    country := l.country
    zip_code := l.zip_code
    latitude := none
    longitude := none
    reference := none
    locality := none }

/-- The goods entry the round trip is expected to reproduce: description,
product key, quantity, unit key and weight are preserved; the value is the
invoice subtotal split evenly over the `n` merchandise lines. -/
def expectedGood (subtotal : ℚ) (n : ℕ) (g : GoodsItem) : ShipmentGoodsDTO :=
  { description := g.description
    product_key := g.product_key
    quantity := g.quantity
    unit_key := g.unit_key
    weight_kg := g.weight_kg
    value := subtotal / (n : ℚ)
    dangerous_material := g.dangerous_material && truthyStr g.dangerous_key
    dangerous_key :=
      if g.dangerous_material && truthyStr g.dangerous_key then g.dangerous_key
      else none }

/-! ## Helper lemmas -/

theorem enumFrom_get? {α : Type} (xs : List α) (n i : ℕ) :
    (enumFrom n xs).get? i = (xs.get? i).map (fun x => (n + i, x)) := by
  induction xs generalizing n i with
  | nil => simp [enumFrom]
  | cons x xs ih =>
    cases i with
    | zero => simp [enumFrom]
    | succ j =>
      simp only [enumFrom, List.get?_cons_succ, ih]
      have h : n + 1 + j = n + (j + 1) := by omega
      rw [h]

theorem truthy_pyOr (a b : Option String) :
    truthyStr (pyOr a b) = (truthyStr a || truthyStr b) := by
  cases a with
  | none => simp [pyOr, truthyStr]
  | some s =>
    by_cases h : s = ""
    · subst h; simp [pyOr, truthyStr]
    · simp [pyOr, truthyStr, h]

theorem pyOrStr_city (c : String) :
    pyOrStr (if c == "" then none else some c) "" = c := by
  by_cases h : c = ""
  · subst h; simp [pyOrStr]
  · simp [pyOrStr, h]

theorem transformItem_concepto (item : InvoiceItem) :
    transformItem (concepto item) = expectedItem item := by
  cases h : truthyIva item.taxes with
  | none =>
    simp [transformItem, concepto, expectedItem, extract_tax_percentage, h]
  | some v =>
    have hv : v / 100 * 100 = v := by
      field_simp
    simp [transformItem, concepto, expectedItem, extract_tax_percentage, h,
      findTax002, hv]

theorem transformLocation_ubicacion (i : ℕ) (l : ShipmentLocation)
    (invoice : Invoice) (issuer : Party) (s : Shipment) :
    transformLocation (ubicacion i l invoice issuer s) = expectedLocation l := by
  by_cases hc : l.city = "" <;> cases ht : l.type <;>
    simp [transformLocation, ubicacion, expectedLocation, ht,
      ShipmentLocationType.value, pyCapitalize, pyOrStr, hc]

theorem transformGood_mercancia (subtotal : ℚ) (n : ℕ) (g : GoodsItem) :
    transformGood subtotal n (mercanciaOf g) = expectedGood subtotal n g := by
  cases hm : g.dangerous_material with
  | false =>
    cases hk : g.dangerous_key <;>
      simp [transformGood, mercanciaOf, expectedGood, hm, hk, truthyStr]
  | true =>
    cases hk : g.dangerous_key with
    | none => simp [transformGood, mercanciaOf, expectedGood, hm, hk, truthyStr]
    | some sk =>
      by_cases hs : sk = "" <;>
        simp [transformGood, mercanciaOf, expectedGood, hm, hk, truthyStr, hs]

theorem map_items_roundtrip (items : List InvoiceItem) :
    (items.map concepto).map transformItem = items.map expectedItem := by
  induction items with
  | nil => rfl
  | cons x xs ih => simp [transformItem_concepto, ih]

theorem enumFrom_map_snd {α β : Type} (h : α → β) (xs : List α) (n : ℕ) :
    (enumFrom n xs).map (fun p => h p.2) = xs.map h := by
  induction xs generalizing n with
  | nil => rfl
  | cons x xsr ih => simp [enumFrom, ih]

theorem map_locations_roundtrip (invoice : Invoice) (issuer : Party)
    (s : Shipment) (locs : List ShipmentLocation) (n : ℕ) :
    ((enumFrom n locs).map
        (fun p => transformLocation (ubicacion p.1 p.2 invoice issuer s)))
      = locs.map expectedLocation := by
  simp [transformLocation_ubicacion, enumFrom_map_snd]

theorem map_goods_roundtrip (subtotal : ℚ) (n : ℕ) (gs : List GoodsItem) :
    (gs.map mercanciaOf).map (transformGood subtotal n)
      = gs.map (expectedGood subtotal n) := by
  induction gs with
  | nil => rfl
  | cons g gsr ih => simp [transformGood_mercancia, ih]

/-- The single traslado entry of a concept's VAT block, when present. -/
def trasladoOf (c : ConceptoDTO) : Option TrasladoDTO :=
  match c.impuestos with
  | none => none
  | some imp =>
    match imp.traslados with
    | none => none
    | some tr => tr.traslado.head?

/-! ## Claims -/

/-- C7: for every amount and currency, constructing `Money` with a negative
amount fails with the validation error, and a non-negative amount always
succeeds, yielding a value with that amount and currency; the currency
defaults to `"MXN"`. -/
theorem c7_money_invariant :
    ∀ (a : ℚ) (c : String),
      (a < 0 → Money.make a c = Except.error "El monto no puede ser negativo")
      ∧ (0 ≤ a → Money.make a c = Except.ok ⟨a, c⟩)
      ∧ Money.makeDefault a = Money.make a "MXN" := by
  intro a c
  refine ⟨?_, ?_, rfl⟩
  · intro h; simp [Money.make, h]
  · intro h; simp [Money.make, not_lt.mpr h]

/-- Witness for C7 at amounts `-1` and `2`. -/
theorem c7_money_invariant_witness :
    Money.make (-1) "USD" = Except.error "El monto no puede ser negativo"
    ∧ Money.make 2 "USD" = Except.ok ⟨2, "USD"⟩ :=
  ⟨(c7_money_invariant (-1) "USD").1 (by norm_num),
   (c7_money_invariant 2 "USD").2.1 (by norm_num)⟩

/-- C8: an invoice item whose taxes dict maps `"iva"` to `0` is rendered
with no `impuestos` field at all, exactly like an absent `iva` key: the
builder tests the Python truthiness of `taxes.get("iva")` and `0` is
falsy. -/
theorem c8_zero_iva_dropped :
    ∀ (item : InvoiceItem) (d : List (String × ℚ)),
      item.taxes = some d → dictGet "iva" d = some 0 →
      (concepto item).impuestos = none := by
  intro item d h1 h2
  by_cases he : d.isEmpty <;> simp [concepto, truthyIva, h1, h2, he]

/-- Witness for C8 at a concrete item with `taxes = {"iva": 0}`. -/
theorem c8_zero_iva_dropped_witness :
    (concepto zeroIvaItem).impuestos = none :=
  c8_zero_iva_dropped zeroIvaItem [("iva", 0)] rfl
    (by norm_num [dictGet, List.find?])

/-- C10: the three state-transition methods of `Invoice` modify only their
designated fields: `mark_pending` changes only `status` (not
`updated_at`); `mark_issued` changes only `status`, `facturify_uuid`,
`facturify_response`, `serie`, `folio`, `factura_id`, `provider` and
`updated_at`; `mark_failed` changes only `status` and `updated_at`;
everything else (`id`, `created_at`, `issuer_id`, `recipient`, `type`,
`complement`, `currency`, `subtotal`, `total`, `cfdi_use`, payment
fields, `expedition_place`, `items`, `shipment`) is unchanged in all
three. -/
theorem c10_transition_frames :
    ∀ (inv : Invoice) (u : String) (p : FacturifyResponse) (s0 : Option String)
      (f0 : Option ℤ) (fid prov : Option String) (now : DateTime),
      ((mark_pending inv).status = InvoiceStatus.pending
        ∧ (mark_pending inv).updated_at = inv.updated_at
        ∧ (mark_pending inv).created_at = inv.created_at
        ∧ (mark_pending inv).id = inv.id
        ∧ (mark_pending inv).issuer_id = inv.issuer_id
        ∧ (mark_pending inv).recipient = inv.recipient
        ∧ (mark_pending inv).type = inv.type
        ∧ (mark_pending inv).complement = inv.complement
        ∧ (mark_pending inv).currency = inv.currency
        ∧ (mark_pending inv).subtotal = inv.subtotal
        ∧ (mark_pending inv).total = inv.total
        ∧ (mark_pending inv).cfdi_use = inv.cfdi_use
        ∧ (mark_pending inv).payment_form = inv.payment_form
        ∧ (mark_pending inv).payment_method = inv.payment_method
        ∧ (mark_pending inv).expedition_place = inv.expedition_place
        ∧ (mark_pending inv).items = inv.items
        ∧ (mark_pending inv).shipment = inv.shipment
        ∧ (mark_pending inv).facturify_uuid = inv.facturify_uuid
        ∧ (mark_pending inv).facturify_response = inv.facturify_response
        ∧ (mark_pending inv).serie = inv.serie
        ∧ (mark_pending inv).folio = inv.folio
        ∧ (mark_pending inv).factura_id = inv.factura_id
        ∧ (mark_pending inv).provider = inv.provider)
      ∧ ((mark_issued inv u p s0 f0 fid prov now).status = InvoiceStatus.issued
        ∧ (mark_issued inv u p s0 f0 fid prov now).facturify_uuid = some u
        ∧ (mark_issued inv u p s0 f0 fid prov now).facturify_response = some p
        ∧ (mark_issued inv u p s0 f0 fid prov now).serie = s0
        ∧ (mark_issued inv u p s0 f0 fid prov now).folio = f0
        ∧ (mark_issued inv u p s0 f0 fid prov now).factura_id = fid
        ∧ (mark_issued inv u p s0 f0 fid prov now).provider = prov
        ∧ (mark_issued inv u p s0 f0 fid prov now).updated_at = now
        ∧ (mark_issued inv u p s0 f0 fid prov now).id = inv.id
        ∧ (mark_issued inv u p s0 f0 fid prov now).created_at = inv.created_at
        ∧ (mark_issued inv u p s0 f0 fid prov now).issuer_id = inv.issuer_id
        ∧ (mark_issued inv u p s0 f0 fid prov now).recipient = inv.recipient
        ∧ (mark_issued inv u p s0 f0 fid prov now).type = inv.type
        ∧ (mark_issued inv u p s0 f0 fid prov now).complement = inv.complement
        ∧ (mark_issued inv u p s0 f0 fid prov now).currency = inv.currency
        ∧ (mark_issued inv u p s0 f0 fid prov now).subtotal = inv.subtotal
        ∧ (mark_issued inv u p s0 f0 fid prov now).total = inv.total
        ∧ (mark_issued inv u p s0 f0 fid prov now).cfdi_use = inv.cfdi_use
        ∧ (mark_issued inv u p s0 f0 fid prov now).payment_form = inv.payment_form
        ∧ (mark_issued inv u p s0 f0 fid prov now).payment_method = inv.payment_method
        ∧ (mark_issued inv u p s0 f0 fid prov now).expedition_place = inv.expedition_place
        ∧ (mark_issued inv u p s0 f0 fid prov now).items = inv.items
        ∧ (mark_issued inv u p s0 f0 fid prov now).shipment = inv.shipment)
      ∧ ((mark_failed inv now).status = InvoiceStatus.failed
        ∧ (mark_failed inv now).updated_at = now
        ∧ (mark_failed inv now).id = inv.id
        ∧ (mark_failed inv now).created_at = inv.created_at
        ∧ (mark_failed inv now).issuer_id = inv.issuer_id
        ∧ (mark_failed inv now).recipient = inv.recipient
        ∧ (mark_failed inv now).type = inv.type
        ∧ (mark_failed inv now).complement = inv.complement
        ∧ (mark_failed inv now).currency = inv.currency
        ∧ (mark_failed inv now).subtotal = inv.subtotal
        ∧ (mark_failed inv now).total = inv.total
        ∧ (mark_failed inv now).cfdi_use = inv.cfdi_use
        ∧ (mark_failed inv now).payment_form = inv.payment_form
        ∧ (mark_failed inv now).payment_method = inv.payment_method
        ∧ (mark_failed inv now).expedition_place = inv.expedition_place
        ∧ (mark_failed inv now).items = inv.items
        ∧ (mark_failed inv now).shipment = inv.shipment
        ∧ (mark_failed inv now).facturify_uuid = inv.facturify_uuid
        ∧ (mark_failed inv now).facturify_response = inv.facturify_response
        ∧ (mark_failed inv now).serie = inv.serie
        ∧ (mark_failed inv now).folio = inv.folio
        ∧ (mark_failed inv now).factura_id = inv.factura_id
        ∧ (mark_failed inv now).provider = inv.provider) := by
  intro inv u p s0 f0 fid prov now
  simp [mark_pending, mark_issued, mark_failed]

/-- C5 (amended): for a cached non-empty token, `get_valid_token` returns
the cached token with no network call when the remaining TTL is at least
the refresh buffer, and invokes `refresh_token` exactly once, returning
its token, when the TTL is strictly below the buffer.  (The code's test is
`ttl < buffer`, so at `ttl = buffer` the cached token is returned.) -/
theorem c5_get_valid_token :
    ∀ (t : String) (ttl buffer : ℤ) (o r : String), t ≠ "" →
      ((buffer ≤ ttl →
          get_valid_token (some t) ttl buffer o r = ⟨t, 0, 0⟩)
       ∧ (ttl < buffer →
          get_valid_token (some t) ttl buffer o r = ⟨r, 0, 1⟩)) := by
  intro t ttl buffer o r ht
  have htt : truthyStr (some t) = true := by simp [truthyStr, ht]
  constructor
  · intro hb
    have hlt : ¬ ttl < buffer := not_lt.mpr hb
    simp [get_valid_token, htt, hlt]
  · intro hb
    simp [get_valid_token, htt, hb]

/-- Witness for C5 (amended) at TTL 100 and 59 against buffer 60. -/
theorem c5_get_valid_token_witness :
    get_valid_token (some "tok") 100 60 "obt" "ref" = ⟨"tok", 0, 0⟩
    ∧ get_valid_token (some "tok") 59 60 "obt" "ref" = ⟨"ref", 0, 1⟩ :=
  ⟨(c5_get_valid_token "tok" 100 60 "obt" "ref" (by decide)).1 (by norm_num),
   (c5_get_valid_token "tok" 59 60 "obt" "ref" (by decide)).2 (by norm_num)⟩

/-- C5 counterexample: with the default 60-second buffer and a cached
token whose TTL is exactly 60 (which does **not** exceed the buffer), the
code returns the cached token and never invokes `refresh_token`, whereas
the claim requires a refresh whenever the TTL does not exceed the
buffer. -/
theorem c5_counterexample :
    (get_valid_token (some "tok") 60 facturify_token_refresh_buffer_default
        "obt" "ref").refresh_calls = 0
    ∧ (get_valid_token (some "tok") 60 facturify_token_refresh_buffer_default
        "obt" "ref").token = "tok"
    ∧ ¬ ((60 : ℤ) > facturify_token_refresh_buffer_default) := by
  refine ⟨?_, ?_, ?_⟩ <;>
    simp [get_valid_token, truthyStr, facturify_token_refresh_buffer_default]

/-- C6: `refresh_token` delegates to `obtain_token` when no cached token
exists; with a cached (non-empty) token it posts that token as bearer
auth, caches the new token and TTL on HTTP 200, falls back to
`obtain_token` on HTTP 401, and raises an `AuthError` on every other
response status — the 401 fallback being the only non-200 response not
propagated as an error. -/
theorem c6_refresh_token :
    ∀ (status : ℕ) (jwt : TokenData) (obtain : Except String TokenData),
      refresh_token none status jwt obtain = obtain_effect obtain
      ∧ (∀ t, t ≠ "" →
          ((refresh_token (some t) status jwt obtain).bearer = some t
           ∧ (status = 200 →
               refresh_token (some t) status jwt obtain
                 = ⟨Except.ok jwt, some jwt, false, some t⟩)
           ∧ (status = 401 →
               refresh_token (some t) status jwt obtain
                 = { obtain_effect obtain with bearer := some t })
           ∧ (status ≠ 200 → status ≠ 401 →
               refresh_token (some t) status jwt obtain
                 = ⟨Except.error ("Unexpected response: " ++ toString status),
                    none, false, some t⟩))) := by
  intro status jwt obtain
  constructor
  · simp [refresh_token, truthyStr]
  · intro t ht
    have htt : truthyStr (some t) = true := by simp [truthyStr, ht]
    refine ⟨?_, ?_, ?_, ?_⟩
    · by_cases h200 : status = 200
      · simp [refresh_token, htt, h200]
      · by_cases h401 : status = 401 <;>
          simp [refresh_token, htt, h200, h401, obtain_effect]
    · intro h200; simp [refresh_token, htt, h200]
    · intro h401; simp [refresh_token, htt, h401]
    · intro h200 h401; simp [refresh_token, htt, h200, h401]

/-- Witness for C6: no-cache delegation, and the 200 / 401 / 500 branches
for a concrete cached token. -/
theorem c6_refresh_token_witness :
    refresh_token none 200 ⟨"new", 43200⟩ (Except.ok ⟨"obt", 240⟩)
      = obtain_effect (Except.ok ⟨"obt", 240⟩)
    ∧ refresh_token (some "cur") 200 ⟨"new", 43200⟩ (Except.ok ⟨"obt", 240⟩)
      = ⟨Except.ok ⟨"new", 43200⟩, some ⟨"new", 43200⟩, false, some "cur"⟩
    ∧ refresh_token (some "cur") 401 ⟨"new", 43200⟩ (Except.ok ⟨"obt", 240⟩)
      = { obtain_effect (Except.ok ⟨"obt", 240⟩) with bearer := some "cur" }
    ∧ refresh_token (some "cur") 500 ⟨"new", 43200⟩ (Except.ok ⟨"obt", 240⟩)
      = ⟨Except.error ("Unexpected response: " ++ toString 500),
         none, false, some "cur"⟩ :=
  ⟨(c6_refresh_token 200 ⟨"new", 43200⟩ (Except.ok ⟨"obt", 240⟩)).1,
   ((c6_refresh_token 200 ⟨"new", 43200⟩ (Except.ok ⟨"obt", 240⟩)).2 "cur"
      (by decide)).2.1 rfl,
   ((c6_refresh_token 401 ⟨"new", 43200⟩ (Except.ok ⟨"obt", 240⟩)).2 "cur"
      (by decide)).2.2.1 rfl,
   ((c6_refresh_token 500 ⟨"new", 43200⟩ (Except.ok ⟨"obt", 240⟩)).2 "cur"
      (by decide)).2.2.2 (by decide) (by decide)⟩

/-- C4: after the pending invoice is created, a provider exception leads
to the invoice being marked failed, that failed invoice being persisted,
and the error surfacing to the caller; a provider response leads to the
invoice being marked issued exactly when a (non-empty) cfdi uuid is
present at one of `data.cfdi_uuid`, top-level `cfdi_uuid`, or
`data.cfdi.cfdi_uuid`, marked failed otherwise, and the resulting state
is what gets persisted. -/
theorem c4_execute_outcomes :
    ∀ (inv : Invoice) (now : DateTime),
      (∀ msg,
        (execute_after_create inv (ProviderOutcome.error msg) now).result
            = Except.error msg
        ∧ (execute_after_create inv (ProviderOutcome.error msg) now).persisted
            = mark_failed inv now
        ∧ (execute_after_create inv (ProviderOutcome.error msg) now).persisted.status
            = InvoiceStatus.failed)
      ∧ (∀ resp,
        ((execute_after_create inv (ProviderOutcome.ok resp) now).persisted.status
            = InvoiceStatus.issued
          ↔ (truthyStr (resp.data.getD emptyRespData).cfdi_uuid = true
             ∨ truthyStr resp.cfdi_uuid = true
             ∨ truthyStr ((resp.data.getD emptyRespData).cfdi.getD ⟨none⟩).cfdi_uuid = true))
        ∧ ((execute_after_create inv (ProviderOutcome.ok resp) now).persisted.status
             = InvoiceStatus.issued
           ∨ (execute_after_create inv (ProviderOutcome.ok resp) now).persisted.status
             = InvoiceStatus.failed)
        ∧ (execute_after_create inv (ProviderOutcome.ok resp) now).result
            = Except.ok (execute_after_create inv (ProviderOutcome.ok resp) now).persisted) := by
  intro inv now
  constructor
  · intro msg
    exact ⟨rfl, rfl, rfl⟩
  · intro resp
    by_cases h : truthyStr (pyOr (resp.data.getD emptyRespData).cfdi_uuid
        (pyOr resp.cfdi_uuid
          ((resp.data.getD emptyRespData).cfdi.getD ⟨none⟩).cfdi_uuid)) = true
    · have hd := h
      rw [truthy_pyOr, truthy_pyOr, Bool.or_eq_true, Bool.or_eq_true] at hd
      refine ⟨?_, ?_, ?_⟩
      · simp [execute_after_create, h, mark_issued, hd]
      · left; simp [execute_after_create, h, mark_issued]
      · simp [execute_after_create, h]
    · have hd := h
      rw [truthy_pyOr, truthy_pyOr, Bool.or_eq_true, Bool.or_eq_true] at hd
      push_neg at hd
      simp only [ne_eq, Bool.not_eq_true] at hd
      refine ⟨?_, ?_, ?_⟩
      · simp [execute_after_create, h, mark_failed, hd.1, hd.2.1, hd.2.2]
      · right; simp [execute_after_create, h, mark_failed]
      · simp [execute_after_create, h]

/-- C1: the builder assigns each location the ID `"OR"`/`"DE"` (by type)
followed by the 0-based position in the full location sequence zero-padded
to 6 digits — one shared counter across both types, in sequence order
(the 1-based `enumerate` counter minus 1); in particular a shipment with
locations [origin, destination, destination] gets exactly
`OR000000`, `DE000001`, `DE000002`. -/
theorem c1_location_ids :
    (∀ (s : Shipment) (invoice : Invoice) (issuer : Party) (i : ℕ)
        (loc : ShipmentLocation),
        s.locations.get? i = some loc →
        ((ubicaciones s invoice issuer).get? i).map UbicacionDTO.IDUbicacion
          = some ((if loc.type = ShipmentLocationType.origin then "OR" else "DE")
                  ++ pad6 i))
    ∧ (ubicaciones sampleShipment sampleInvoice sampleIssuer).map
        UbicacionDTO.IDUbicacion
      = ["OR000000", "DE000001", "DE000002"] := by
  constructor
  · intro s invoice issuer i loc h
    simp only [ubicaciones, List.get?_map, enumFrom_get?, h, Option.map_some']
    have h1 : 1 + i - 1 = i := by omega
    simp [ubicacion, h1]
  · decide

/-- Witness for C1 at position 1 of the sample shipment (its first
destination). -/
theorem c1_location_ids_witness :
    ((ubicaciones sampleShipment sampleInvoice sampleIssuer).get? 1).map
        UbicacionDTO.IDUbicacion
      = some ((if sampleLocD1.type = ShipmentLocationType.origin then "OR" else "DE")
              ++ pad6 1) :=
  c1_location_ids.1 sampleShipment sampleInvoice sampleIssuer 1 sampleLocD1 rfl

/-- C2 (amended): each concept's VAT block has `base` = quantity ×
unit_price rounded to 2 decimals, `tasaOCuota` = percentage / 100, and
`importe` = (quantity × unit_price) × (percentage / 100) rounded to 2
decimals — computed from the *unrounded* product, not from the rounded
base — and the `impuestos` field is omitted exactly when no non-zero
`iva` percentage is present; the exemplar quantity=2, unit_price=50,
iva=16 yields base=100.00, tasaOCuota=0.16, importe=16.00. -/
theorem c2_concepto_vat :
    (∀ (item : InvoiceItem),
        (truthyIva item.taxes = none → (concepto item).impuestos = none)
        ∧ (∀ p, truthyIva item.taxes = some p →
            trasladoOf (concepto item) = some
              { base := round2 (item.quantity * item.unit_price)
                impuesto := "002"
                tipoFactor := "Tasa"
                tasaOCuota := p / 100
                importe := round2 (item.quantity * item.unit_price * (p / 100)) }))
    ∧ trasladoOf (concepto c2ExemplarItem)
        = some { base := 100, impuesto := "002", tipoFactor := "Tasa",
                 tasaOCuota := 16 / 100, importe := 16 } := by
  constructor
  · intro item
    constructor
    · intro h; simp [concepto, h]
    · intro p hp; simp [trasladoOf, concepto, hp]
  · have h16 : truthyIva (some [("iva", (16 : ℚ))]) = some 16 := by
      norm_num [truthyIva, dictGet, List.find?]
    simp [trasladoOf, concepto, c2ExemplarItem, h16]
    norm_num [round2, pyRoundInt]

/-- Witness for C2 (amended) at an item with no taxes and at the
exemplar item. -/
theorem c2_concepto_vat_witness :
    (concepto noTaxItem).impuestos = none
    ∧ trasladoOf (concepto c2ExemplarItem) = some
        { base := round2 (c2ExemplarItem.quantity * c2ExemplarItem.unit_price)
          impuesto := "002"
          tipoFactor := "Tasa"
          tasaOCuota := 16 / 100
          importe := round2
            (c2ExemplarItem.quantity * c2ExemplarItem.unit_price * (16 / 100)) } :=
  ⟨(c2_concepto_vat.1 noTaxItem).1 rfl,
   (c2_concepto_vat.1 c2ExemplarItem).2 16
     (by norm_num [truthyIva, c2ExemplarItem, dictGet, List.find?])⟩

/-- C2 counterexample: (a) at quantity=1, unit_price=1.034, iva=16 the
code emits importe `0.17` = round2(1.034 × 0.16), while the claim's
formula — the rounded base times the rate, rounded — gives `0.16`;
(b) an item whose taxes dict carries `iva: 0` (a present iva percentage)
still has its `impuestos` field omitted, contradicting the claim's
"omitted exactly when no iva percentage is present". -/
theorem c2_counterexample :
    ((trasladoOf (concepto c2CounterItem)).map TrasladoDTO.importe
        = some (17 / 100)
      ∧ specImporte c2CounterItem 16 = 16 / 100
      ∧ truthyIva c2CounterItem.taxes = some 16
      ∧ (17 : ℚ) / 100 ≠ 16 / 100)
    ∧ ((concepto zeroIvaItem).impuestos = none
      ∧ dictGet "iva" [("iva", (0 : ℚ))] = some 0
      ∧ zeroIvaItem.taxes = some [("iva", (0 : ℚ))]) := by
  have h16 : truthyIva (some [("iva", (16 : ℚ))]) = some 16 := by
    norm_num [truthyIva, dictGet, List.find?]
  have h16c : truthyIva c2CounterItem.taxes = some 16 := h16
  refine ⟨⟨?_, ?_, h16c, by norm_num⟩, ?_, ?_, rfl⟩
  · simp [trasladoOf, concepto, c2CounterItem, h16]
    norm_num [round2, pyRoundInt]
  · norm_num [specImporte, c2CounterItem, round2, pyRoundInt]
  · norm_num [concepto, truthyIva, zeroIvaItem, dictGet, List.find?]
  · norm_num [dictGet, List.find?]

/-- C9 (amended): `transform` fails on every request whose `Ubicacion`
list is empty (the `Ubicacion[0]` indexing); with a non-empty `Ubicacion`
list it succeeds exactly when the internal DTOs it constructs pass their
pydantic validation (`CartaPorteRequest.valid`), and fails with a
`ValidationError` otherwise; an empty `Mercancia` list by itself does
**not** make it fail — the `subtotal / len(Mercancia)` division sits
inside the per-merchandise comprehension, so it is never executed with a
zero denominator and a successful result simply has an empty goods
list. -/
theorem c9_transform_domain :
    ∀ (req : FacturifyCartaPorteRequest),
      (req.factura.Complemento.CartaPorte.Ubicaciones.Ubicacion = [] →
        transform req = none)
      ∧ (∀ first rest,
          req.factura.Complemento.CartaPorte.Ubicaciones.Ubicacion
            = first :: rest →
          (CartaPorteRequest.valid (transformCore req first) = true →
            transform req = some (transformCore req first))
          ∧ (CartaPorteRequest.valid (transformCore req first) = false →
            transform req = none))
      ∧ (∀ out, transform req = some out →
          req.factura.Complemento.CartaPorte.Mercancias.Mercancia = [] →
          out.shipment.goods = []) := by
  intro req
  refine ⟨?_, ?_, ?_⟩
  · intro h; simp [transform, h]
  · intro first rest h
    constructor <;> intro hv <;> simp [transform, h, hv]
  · intro out hout hm
    cases hu : req.factura.Complemento.CartaPorte.Ubicaciones.Ubicacion with
    | nil => simp [transform, hu] at hout
    | cons a as =>
      simp only [transform, hu] at hout
      by_cases hv : CartaPorteRequest.valid (transformCore req a) = true
      · rw [if_pos hv] at hout
        rw [← Option.some.inj hout]
        simp [transformCore, hm]
      · rw [if_neg hv] at hout
        exact absurd hout (by simp)

/-- Witness for C9 (amended): the request with no locations fails; the
valid request with a location but no merchandise succeeds; the request
whose location zip is `"ABC"` fails validation despite its non-empty
location list. -/
theorem c9_transform_domain_witness :
    transform c9ReqNoLoc = none
    ∧ transform c9Req = some (transformCore c9Req c9Ubicacion)
    ∧ transform c9BadZipReq = none :=
  ⟨(c9_transform_domain c9ReqNoLoc).1 rfl,
   ((c9_transform_domain c9Req).2.1 c9Ubicacion [] rfl).1 (by decide),
   ((c9_transform_domain c9BadZipReq).2.1 c9BadZipUbicacion [] rfl).2 (by decide)⟩

/-- C9 counterexample: a concrete provider-format request whose
`Mercancia` list is empty on which `transform` succeeds (with an empty
goods list) rather than failing with a division by zero. -/
theorem c9_counterexample :
    c9Req.factura.Complemento.CartaPorte.Mercancias.Mercancia = []
    ∧ (transform c9Req).isSome = true
    ∧ (transform c9Req).map (fun o => o.shipment.goods) = some [] :=
  ⟨rfl, by decide, by decide⟩

theorem map_locations_composed (invoice : Invoice) (issuer : Party)
    (s : Shipment) (locs : List ShipmentLocation) (n : ℕ) :
    List.map transformLocation
        ((enumFrom n locs).map (fun p => ubicacion p.1 p.2 invoice issuer s))
      = locs.map expectedLocation := by
  rw [List.map_map]
  simpa [Function.comp] using map_locations_roundtrip invoice issuer s locs n

theorem map_locations_comp (invoice : Invoice) (issuer : Party)
    (s : Shipment) (locs : List ShipmentLocation) (n : ℕ) :
    List.map (transformLocation ∘ fun p => ubicacion p.1 p.2 invoice issuer s)
        (enumFrom n locs)
      = locs.map expectedLocation := by
  rw [← List.map_map]
  exact map_locations_composed invoice issuer s locs n

/-- C3 (amended): for every invoice carrying a shipment on which the
round trip actually yields an output — i.e. the built payload parses as a
provider-format request (non-empty recipient provider UUID, at least one
transport figure) and the transformer's internal pydantic validation
accepts the reconstructed data — the output reproduces: the items
(product key, description, quantity, unit key, unit price, and the `iva`
percentage whenever absent-or-nonzero — a zero percentage is dropped);
the locations in order (type, timestamp, street, city, state, country,
zip, with exterior number and neighborhood defaulted); the goods
(description, product key, quantity, unit key, weight) with each value
equal to subtotal / number of goods; and the vehicle's configuration and
plate, with `None` insurance fields becoming empty strings. -/
theorem c3_round_trip_reproduction :
    ∀ (account_uuid fecha ccp : String) (invoice : Invoice) (issuer : Party)
      (s : Shipment),
      invoice.shipment = some s →
      (round_trip account_uuid invoice issuer fecha ccp).isSome = true →
      ((round_trip account_uuid invoice issuer fecha ccp).map (fun o => o.items)
          = some (invoice.items.map expectedItem)
        ∧ (round_trip account_uuid invoice issuer fecha ccp).map
            (fun o => o.shipment.locations)
          = some (s.locations.map expectedLocation)
        ∧ (round_trip account_uuid invoice issuer fecha ccp).map
            (fun o => o.shipment.goods)
          = some (s.goods.map (expectedGood invoice.subtotal.amount s.goods.length))
        ∧ (round_trip account_uuid invoice issuer fecha ccp).map
            (fun o => (o.shipment.vehicle.configuration, o.shipment.vehicle.plate,
                       o.shipment.vehicle.insurance_company,
                       o.shipment.vehicle.insurance_policy))
          = some (s.vehicle.configuration, s.vehicle.plate,
                  some (pyOrStr s.vehicle.insurance_company ""),
                  some (pyOrStr s.vehicle.insurance_policy ""))) := by
  intro account_uuid fecha ccp invoice issuer s hship hsome
  obtain ⟨tm, pt, pn, tdk, twk, veh, locs, goods, figs⟩ := s
  cases figs with
  | nil => simp [round_trip, build, hship, carta_porte] at hsome
  | cons f fs =>
  cases hu : invoice.recipient.external_uuid with
  | none => simp [round_trip, build, hship, carta_porte, hu] at hsome
  | some r =>
  by_cases hre : r = ""
  · simp [round_trip, build, hship, carta_porte, hu, hre] at hsome
  · have hrb : (r == "") = false := by simp [hre]
    cases locs with
    | nil =>
      simp [round_trip, build, hship, carta_porte, hu, hrb, transform,
        ubicaciones, enumFrom] at hsome
    | cons l ls =>
      simp [round_trip, build, hship, carta_porte, hu, hrb, transform,
        ubicaciones, enumFrom, autotransporte, mercanciasOf,
        transformCore, Function.comp,
        map_items_roundtrip, transformItem_concepto,
        transformLocation_ubicacion, map_locations_composed,
        map_locations_comp, enumFrom_map_snd, map_goods_roundtrip,
        transformGood_mercancia, List.length_map] at hsome
      refine ⟨?_, ?_, ?_, ?_⟩ <;>
        simp [round_trip, build, hship, carta_porte, hu, hrb, ubicaciones,
          enumFrom, transform, hsome, autotransporte, mercanciasOf,
          transformCore, Function.comp,
          map_items_roundtrip, transformItem_concepto,
          transformLocation_ubicacion, map_locations_composed,
          map_locations_comp, enumFrom_map_snd, map_goods_roundtrip,
          transformGood_mercancia, List.length_map]

/-- Witness for C3 (amended) at the goods-free untaxed sample invoice
(its round trip succeeds, evaluated by kernel reduction). -/
theorem c3_round_trip_reproduction_witness :
    ((round_trip "ACC" c3WitnessInvoice sampleIssuer "F" "C").map (fun o => o.items)
        = some (c3WitnessInvoice.items.map expectedItem)
      ∧ (round_trip "ACC" c3WitnessInvoice sampleIssuer "F" "C").map
          (fun o => o.shipment.locations)
        = some (c3WitnessShipment.locations.map expectedLocation)
      ∧ (round_trip "ACC" c3WitnessInvoice sampleIssuer "F" "C").map
          (fun o => o.shipment.goods)
        = some (c3WitnessShipment.goods.map
            (expectedGood c3WitnessInvoice.subtotal.amount
              c3WitnessShipment.goods.length))
      ∧ (round_trip "ACC" c3WitnessInvoice sampleIssuer "F" "C").map
          (fun o => (o.shipment.vehicle.configuration, o.shipment.vehicle.plate,
                     o.shipment.vehicle.insurance_company,
                     o.shipment.vehicle.insurance_policy))
        = some (c3WitnessShipment.vehicle.configuration,
                c3WitnessShipment.vehicle.plate,
                some (pyOrStr c3WitnessShipment.vehicle.insurance_company ""),
                some (pyOrStr c3WitnessShipment.vehicle.insurance_policy ""))) :=
  c3_round_trip_reproduction "ACC" "F" "C" c3WitnessInvoice sampleIssuer
    c3WitnessShipment rfl (by decide)

/-- C3 counterexample: the claim quantifies over *every* invoice carrying
a shipment and an issuer, but for an invoice whose shipment has no
transport figures the builder drops the `FiguraTransporte` key entirely,
so its payload cannot parse as a provider-format request and the inbound
transformer cannot reproduce anything: the round trip is empty. -/
theorem c3_counterexample :
    sampleInvoiceNoFigures.shipment = some sampleShipmentNoFigures
    ∧ sampleShipmentNoFigures.locations ≠ []
    ∧ sampleInvoiceNoFigures.recipient.external_uuid.isSome = true
    ∧ build "ACC" sampleInvoiceNoFigures sampleIssuer "F" "C" = none
    ∧ round_trip "ACC" sampleInvoiceNoFigures sampleIssuer "F" "C" = none :=
  ⟨rfl, by decide, rfl, rfl, rfl⟩
